import Mathlib

/-!
Shallow embedding of `pycarmd` (src/pycarmd/api.py), a thin client for the
CarMD v2.0 REST API, together with theorems checking the natural-language
specification against the code.

Modelling conventions:
* Python `str` / `int` query-parameter values become the inductive `PyVal`;
  `str(x)` becomes `pyStr`.
* A Python dict literal of query parameters becomes a `List (String × PyVal)`
  (keys unique as written in the source).
* The `**kwargs` dict of `CarmdApi.get` becomes a total map
  `String → Option KwVal`; dict assignment becomes the pointwise update `pySet`.
* `requests.get(url, params=..., **kwargs)` is modelled by the record
  `HttpCall` capturing exactly the arguments handed to the HTTP layer; the
  network itself is outside the model.
* Python exceptions become the `Except PyError` monad: `KeyError` and
  `TypeError` carry their message strings verbatim.
* `os.environ` becomes `Env`; the module-level constants computed at import
  time (api.py lines 8-10) become `ModuleGlobals` produced by
  `importApiModule`.
-/

/-- A Python value used as a query-parameter value or method argument. -/
inductive PyVal
  | int (n : Int)
  | str (s : String)
deriving DecidableEq, Repr

/-- Python `str(x)` for the values we model. -/
def pyStr : PyVal → String
  | .int n => toString n
  | .str s => s

/-- A Python dict of query parameters, in source literal order. -/
def PyDict := List (String × PyVal)
deriving DecidableEq

/-- Python exceptions raised by the client (api.py lines 54 and 116). -/
inductive PyError
  | keyError (msg : String)
  | typeError (msg : String)
deriving DecidableEq, Repr

/-- `requests.auth.AuthBase` subclass state: the credential pair
(api.py lines 13-19). -/
structure CarmdAuth where
  key : String
  secret : String
deriving DecidableEq, Repr

/-- An outgoing HTTP request as seen by a `requests` auth callable:
method, URL, headers and body. -/
structure Request where
  method : String
  url : String
  headers : String → Option String
  body : Option String

/-- Assignment into a string-keyed Python dict viewed as a total map. -/
def pySet {α : Type} (d : String → Option α) (k : String) (v : α) :
    String → Option α :=
  fun x => if x = k then some v else d x

/-- `CarmdAuth.__call__` (api.py lines 21-24): sets the `authorization`
header to the key and the `partner-token` header to the secret, in that
order, and returns the request. -/
def CarmdAuth.call (a : CarmdAuth) (r : Request) : Request :=
  { r with
    headers := pySet (pySet r.headers "authorization" a.key) "partner-token" a.secret }

/-- A keyword-argument value that can be forwarded to `requests.get`. -/
inductive KwVal
  | auth (a : CarmdAuth)
  | timeout (n : Nat)
  | str (s : String)
  | flag (b : Bool)
deriving DecidableEq, Repr

/-- The empty `**kwargs` dict. -/
def emptyKwargs : String → Option KwVal := fun _ => none

/-- The arguments handed to `requests.get` (api.py line 65): the URL, the
`params` mapping, and the remaining keyword arguments. -/
structure HttpCall where
  url : String
  params : Option PyDict
  kwargs : String → Option KwVal

/-- `requests.get(url, params=params, **kwargs)` as the record of its
arguments. -/
def requestsGet (url : String) (params : Option PyDict)
    (kwargs : String → Option KwVal) : HttpCall :=
  { url := url, params := params, kwargs := kwargs }

/-- The process environment, as read by `os.environ.get`. -/
structure Env where
  vars : String → Option String

/-- `os.environ.get(k, None)`. -/
def os_environ_get (e : Env) (k : String) : Option String := e.vars k

/-- An environment with no variables set. -/
def envEmpty : Env := { vars := fun _ => none }

/-- The module-level globals of `pycarmd.api` computed at import time
(api.py lines 9-10). -/
structure ModuleGlobals where
  CMD_DEFAULT_KEY : Option String
  CMD_DEFAULT_SECRET : Option String
deriving DecidableEq, Repr

/-- Importing `pycarmd.api` in environment `e`: the two default-credential
globals are read from the environment once, at import time. -/
def importApiModule (e : Env) : ModuleGlobals :=
  { CMD_DEFAULT_KEY := os_environ_get e "CARMD_KEY"
    CMD_DEFAULT_SECRET := os_environ_get e "CARMD_SECRET" }

/-- `CMD_BASE_URL` (api.py line 8). -/
def CMD_BASE_URL : String := "http://api2.carmd.com/v2.0/"

/-- The message of the `KeyError` raised by `CarmdApi.__init__`
(api.py lines 54-56), with Python implicit string concatenation applied. -/
def initErrorMsg : String :=
  "This object must be initialized with a key and secret value. Alternatively, \x27CARMD_KEY\x27 and \x27CARMD_SECRET\x27 values can be stored/retrieved from the operating system environment."

/-- Python truthiness of an optional string: `None` and `\x27\x27` are falsy,
every other string is truthy.  `all((key, secret))` in api.py line 53 is
`pyTruthy key && pyTruthy secret`. -/
def pyTruthy : Option String → Bool
  | none => false
  | some s => !(s == "")

/-- `if x is None: x = dflt` (api.py lines 49-52). -/
def fallback (x : Option String) (dflt : Option String) : Option String :=
  match x with
  | none => dflt
  | some v => some v

/-- The client state after a successful `__init__` (api.py lines 58-60). -/
structure CarmdApi where
  _key : String
  _secret : String
  _auth : CarmdAuth
deriving DecidableEq, Repr

/-- `CarmdApi.__init__` (api.py lines 38-60): optional key and secret fall
back to the module defaults; if either is missing or falsy a `KeyError` is
raised; otherwise the credentials and the auth object are stored. -/
def CarmdApi.init (g : ModuleGlobals) (key secret : Option String) :
    Except PyError CarmdApi :=
  let key := fallback key g.CMD_DEFAULT_KEY
  let secret := fallback secret g.CMD_DEFAULT_SECRET
  if pyTruthy key && pyTruthy secret then
    let k := key.getD ""
    let s := secret.getD ""
    .ok { _key := k, _secret := s, _auth := { key := k, secret := s } }
  else
    .error (.keyError initErrorMsg)

/-- `CarmdApi.get` (api.py lines 62-65): builds the URL from the base URL and
the service path, overwrites the `auth` keyword argument with the stored auth
object, and hands everything to `requests.get`. -/
def CarmdApi.get (api : CarmdApi) (service : String) (params : Option PyDict)
    (kwargs : String → Option KwVal) : HttpCall :=
  let url := CMD_BASE_URL ++ service
  let kwargs := pySet kwargs "auth" (KwVal.auth api._auth)
  requestsGet url params kwargs

/-- `CarmdApi.get_decode` (api.py line 83). -/
def CarmdApi.get_decode (api : CarmdApi) (vin : PyVal) : HttpCall :=
  api.get "decode" (some [("vin", vin)]) emptyKwargs

/-- `CarmdApi.get_safety_recall` (api.py line 94). -/
def CarmdApi.get_safety_recall (api : CarmdApi) (vehicle_id : PyVal) : HttpCall :=
  api.get "articles/safetyrecall" (some [("vehicleID", vehicle_id)]) emptyKwargs

/-- The message of the `TypeError` raised by `CarmdApi.get_predicted_repair`
(api.py lines 116-117), with Python implicit string concatenation applied. -/
def predictedRepairErrorMsg : String :=
  "Required paramater missing: vehicle_id, tag, or fleet_id"

/-- `CarmdApi.get_predicted_repair` (api.py lines 96-118): picks the query
parameter from the first supplied identifier in the order vehicle_id, tag,
fleet_id; raises `TypeError` when all three are `None`. -/
def CarmdApi.get_predicted_repair (api : CarmdApi) (vehicle_id tag fleet_id : Option PyVal) :
    Except PyError HttpCall :=
  match vehicle_id, tag, fleet_id with
  | some v, _, _ => .ok (api.get "report/predicted" (some [("vehicleID", v)]) emptyKwargs)
  | none, some t, _ => .ok (api.get "report/predicted" (some [("tag", t)]) emptyKwargs)
  | none, none, some f => .ok (api.get "report/predicted" (some [("fleetID", f)]) emptyKwargs)
  | none, none, none => .error (.typeError predictedRepairErrorMsg)

/-- `CarmdApi.get_warranty` (api.py line 148). -/
def CarmdApi.get_warranty (api : CarmdApi) (vehicle_id : PyVal) : HttpCall :=
  api.get "articles/warranty" (some [("vehicleID", vehicle_id)]) emptyKwargs

/-- `CarmdApi.get_maintenance` (api.py line 162): mileage is coerced with
`str`. -/
def CarmdApi.get_maintenance (api : CarmdApi) (vin mileage : PyVal) : HttpCall :=
  api.get "maint/next" (some [("vin", vin), ("mileage", .str (pyStr mileage))]) emptyKwargs

/-- `CarmdApi.get_years` (api.py line 174). -/
def CarmdApi.get_years (api : CarmdApi) (make : PyVal) : HttpCall :=
  api.get "decode" (some [("make", make)]) emptyKwargs

/-- `CarmdApi.get_makes` (api.py line 184): no query parameters. -/
def CarmdApi.get_makes (api : CarmdApi) : HttpCall :=
  api.get "decode" none emptyKwargs

/-- `CarmdApi.get_models` (api.py line 198): the year is coerced with
`str`. -/
def CarmdApi.get_models (api : CarmdApi) (year make : PyVal) : HttpCall :=
  api.get "decode" (some [("year", .str (pyStr year)), ("make", make)]) emptyKwargs

/-- Whether a result of a fallible operation produced an HTTP request. -/
def isIssued : Except PyError HttpCall → Bool
  | .ok _ => true
  | .error _ => false

/-- A concrete client used to instantiate universally quantified theorems. -/
def sampleApi : CarmdApi :=
  { _key := "k", _secret := "s", _auth := { key := "k", secret := "s" } }

/-- The `auth` keyword handed to `requests.get` is always the stored auth
object (api.py line 64). -/
theorem CarmdApi.get_kwargs_auth (api : CarmdApi) (service : String)
    (params : Option PyDict) (kwargs : String → Option KwVal) :
    (api.get service params kwargs).kwargs "auth" = some (KwVal.auth api._auth) := by
  simp [CarmdApi.get, requestsGet, pySet]

/-- Keyword arguments other than `auth` reach `requests.get` unchanged. -/
theorem CarmdApi.get_kwargs_other (api : CarmdApi) (service : String)
    (params : Option PyDict) (kwargs : String → Option KwVal) (k : String)
    (hk : k ≠ "auth") :
    (api.get service params kwargs).kwargs k = kwargs k := by
  simp only [CarmdApi.get, requestsGet, pySet]
  rw [if_neg hk]

/-- The auth callable sets the `authorization` header to the key. -/
theorem CarmdAuth.call_authorization (a : CarmdAuth) (r : Request) :
    (a.call r).headers "authorization" = some a.key := by
  simp [CarmdAuth.call, pySet]

/-- The auth callable sets the `partner-token` header to the secret. -/
theorem CarmdAuth.call_partner_token (a : CarmdAuth) (r : Request) :
    (a.call r).headers "partner-token" = some a.secret := by
  simp [CarmdAuth.call, pySet]

/-- The auth callable leaves every other header unchanged. -/
theorem CarmdAuth.call_other_header (a : CarmdAuth) (r : Request) (h : String)
    (h1 : h ≠ "authorization") (h2 : h ≠ "partner-token") :
    (a.call r).headers h = r.headers h := by
  simp only [CarmdAuth.call, pySet]
  rw [if_neg h2, if_neg h1]

/-- C1: each call to `get_predicted_repair` passes to `get` a query mapping
with exactly one entry, chosen by priority vehicle_id over tag over fleet_id:
`{vehicleID: vehicle_id}` when vehicle_id is supplied, else `{tag: tag}` when
tag is supplied, else `{fleetID: fleet_id}`. -/
theorem claim_C1 (api : CarmdApi) (v t f : Option PyVal) :
    (∀ x, v = some x →
      api.get_predicted_repair v t f
        = .ok (api.get "report/predicted" (some [("vehicleID", x)]) emptyKwargs))
    ∧ (∀ x, v = none → t = some x →
      api.get_predicted_repair v t f
        = .ok (api.get "report/predicted" (some [("tag", x)]) emptyKwargs))
    ∧ (∀ x, v = none → t = none → f = some x →
      api.get_predicted_repair v t f
        = .ok (api.get "report/predicted" (some [("fleetID", x)]) emptyKwargs))
    ∧ (∀ c, api.get_predicted_repair v t f = .ok c →
      ∃ k x, c.params = some [(k, x)]) := by
  refine ⟨?_, ?_, ?_, ?_⟩ <;>
    cases v <;> cases t <;> cases f <;>
      simp_all [CarmdApi.get_predicted_repair, CarmdApi.get, requestsGet] <;>
        exact ⟨_, _, rfl⟩

/-- C2: `get_predicted_repair` with all three identifiers unset raises the
`TypeError` and issues no HTTP request. -/
theorem claim_C2 (api : CarmdApi) :
    api.get_predicted_repair none none none
      = .error (.typeError predictedRepairErrorMsg)
    ∧ isIssued (api.get_predicted_repair none none none) = false :=
  ⟨rfl, rfl⟩

/-- C3 counterexample: the empty string is a string, and supplying it as the
key together with the string "secret" as secret makes construction raise the
`KeyError` (api.py line 53 tests Python truthiness, and "" is falsy), even
though both arguments were supplied; so construction does not succeed for
every pair of strings. -/
theorem claim_C3_counterexample :
    CarmdApi.init (importApiModule envEmpty) (some "") (some "secret")
      = .error (.keyError initErrorMsg) := rfl

/-- C3 amended: for every pair of NON-EMPTY strings key and secret,
construction with both supplied succeeds, regardless of the environment the
module was imported in. -/
theorem claim_C3_amended (e : Env) (k s : String) (hk : k ≠ "") (hs : s ≠ "") :
    CarmdApi.init (importApiModule e) (some k) (some s)
      = .ok { _key := k, _secret := s, _auth := { key := k, secret := s } } := by
  simp [CarmdApi.init, fallback, pyTruthy, hk, hs]

/-- C3 amended, instantiated: construction with the concrete non-empty
credentials "Basic abc=" and "tok-123" in an empty environment succeeds. -/
theorem claim_C3_amended_witness :
    CarmdApi.init (importApiModule envEmpty) (some "Basic abc=") (some "tok-123")
      = .ok { _key := "Basic abc=", _secret := "tok-123",
              _auth := { key := "Basic abc=", secret := "tok-123" } } :=
  claim_C3_amended envEmpty "Basic abc=" "tok-123" (by decide) (by decide)

/-- C4 counterexample: with an empty environment, key `""` and secret `"x"`
supplied, neither credential "remains unset" after fallback (both remain
`some` values), yet construction fails; so "fails iff either remains unset"
is false in the only-if direction. -/
theorem claim_C4_counterexample :
    fallback (some "") (importApiModule envEmpty).CMD_DEFAULT_KEY = some ""
    ∧ fallback (some "x") (importApiModule envEmpty).CMD_DEFAULT_SECRET = some "x"
    ∧ CarmdApi.init (importApiModule envEmpty) (some "") (some "x")
        = .error (.keyError initErrorMsg) :=
  ⟨rfl, rfl, rfl⟩

/-- C4 amended: construction fails with the configuration `KeyError` if and
only if, after falling back to the module defaults for any omitted argument,
the key or the secret is unset or empty (Python-falsy); every construction
error is that `KeyError`, whose message names both the key and the secret. -/
theorem claim_C4_amended (g : ModuleGlobals) (key secret : Option String) :
    ((∃ e, CarmdApi.init g key secret = .error e)
      ↔ (pyTruthy (fallback key g.CMD_DEFAULT_KEY) = false
         ∨ pyTruthy (fallback secret g.CMD_DEFAULT_SECRET) = false))
    ∧ (∀ e, CarmdApi.init g key secret = .error e → e = .keyError initErrorMsg)
    ∧ (∃ pre post, initErrorMsg = pre ++ "key" ++ post)
    ∧ (∃ pre post, initErrorMsg = pre ++ "secret" ++ post) := by
  have hinit : CarmdApi.init g key secret
      = if (pyTruthy (fallback key g.CMD_DEFAULT_KEY)
            && pyTruthy (fallback secret g.CMD_DEFAULT_SECRET)) then
          .ok { _key := (fallback key g.CMD_DEFAULT_KEY).getD "",
                _secret := (fallback secret g.CMD_DEFAULT_SECRET).getD "",
                _auth := { key := (fallback key g.CMD_DEFAULT_KEY).getD "",
                           secret := (fallback secret g.CMD_DEFAULT_SECRET).getD "" } }
        else .error (.keyError initErrorMsg) := rfl
  refine ⟨?_, ?_, ?_, ?_⟩
  · cases h1 : pyTruthy (fallback key g.CMD_DEFAULT_KEY) <;>
      cases h2 : pyTruthy (fallback secret g.CMD_DEFAULT_SECRET) <;>
        simp [hinit, h1, h2]
  · intro e he
    cases h1 : pyTruthy (fallback key g.CMD_DEFAULT_KEY) <;>
      cases h2 : pyTruthy (fallback secret g.CMD_DEFAULT_SECRET) <;>
        rw [hinit, h1, h2] at he <;> simp_all
  · exact ⟨"This object must be initialized with a ",
      " and secret value. Alternatively, \x27CARMD_KEY\x27 and \x27CARMD_SECRET\x27 values can be stored/retrieved from the operating system environment.",
      rfl⟩
  · exact ⟨"This object must be initialized with a key and ",
      " value. Alternatively, \x27CARMD_KEY\x27 and \x27CARMD_SECRET\x27 values can be stored/retrieved from the operating system environment.",
      rfl⟩

/-- C5: applying the auth callable sets the `authorization` header to the key
and the `partner-token` header to the secret, and leaves the method, URL,
body, and every other header unchanged. -/
theorem claim_C5 (a : CarmdAuth) (r : Request) :
    (a.call r).method = r.method
    ∧ (a.call r).url = r.url
    ∧ (a.call r).body = r.body
    ∧ (a.call r).headers "authorization" = some a.key
    ∧ (a.call r).headers "partner-token" = some a.secret
    ∧ (∀ h, h ≠ "authorization" → h ≠ "partner-token" →
        (a.call r).headers h = r.headers h) :=
  ⟨rfl, rfl, rfl, a.call_authorization r, a.call_partner_token r,
    fun h h1 h2 => a.call_other_header r h h1 h2⟩

/-- C6: the auth callable is idempotent on headers: applying it twice gives
the same header map as applying it once, and the `authorization` and
`partner-token` values are still exactly the configured key and secret. -/
theorem claim_C6 (a : CarmdAuth) (r : Request) :
    (a.call (a.call r)).headers = (a.call r).headers
    ∧ (a.call (a.call r)).headers "authorization" = some a.key
    ∧ (a.call (a.call r)).headers "partner-token" = some a.secret := by
  refine ⟨funext fun x => ?_, a.call_authorization (a.call r),
    a.call_partner_token (a.call r)⟩
  by_cases h1 : x = "partner-token" <;> by_cases h2 : x = "authorization" <;>
    simp_all [CarmdAuth.call, pySet]

/-- A second credential pair, distinct from `sampleApi`'s. -/
def otherAuth : CarmdAuth := { key := "otherK", secret := "otherS" }

/-- A `**kwargs` dict in which the caller supplied their own `auth` value. -/
def kwWithAuth : String → Option KwVal :=
  pySet emptyKwargs "auth" (KwVal.auth otherAuth)

/-- C7 counterexample: a caller-supplied `auth` keyword option is not
forwarded verbatim — `get` overwrites it with the client's own auth object
(api.py line 64), so what reaches `requests.get` differs from what the
caller supplied. -/
theorem claim_C7_counterexample :
    kwWithAuth "auth" = some (KwVal.auth otherAuth)
    ∧ (sampleApi.get "decode" none kwWithAuth).kwargs "auth"
        = some (KwVal.auth { key := "k", secret := "s" })
    ∧ (sampleApi.get "decode" none kwWithAuth).kwargs "auth" ≠ kwWithAuth "auth" :=
  ⟨rfl, rfl, by decide⟩

/-- C7 amended: `get(endpoint, params)` hands `requests.get` the fixed base
URL concatenated with the endpoint and the given query parameters; every
caller-supplied keyword option other than `auth` is forwarded verbatim, while
the `auth` option is always set to the client's stored auth object,
overriding any caller-supplied value. -/
theorem claim_C7_amended (api : CarmdApi) (service : String)
    (params : Option PyDict) (kwargs : String → Option KwVal) :
    (api.get service params kwargs).url = CMD_BASE_URL ++ service
    ∧ (api.get service params kwargs).params = params
    ∧ (api.get service params kwargs).kwargs "auth" = some (KwVal.auth api._auth)
    ∧ (∀ k, k ≠ "auth" → (api.get service params kwargs).kwargs k = kwargs k) :=
  ⟨rfl, rfl, api.get_kwargs_auth service params kwargs,
    fun k hk => api.get_kwargs_other service params kwargs k hk⟩

/-- C8: `get_models` passes the query parameters `{year: str(year),
make: make}` with the year coerced to a string, so `get_models(2013,
"Toyota")` and `get_models("2013", "Toyota")` issue the same request, with
`year="2013"` and `make="Toyota"`. -/
theorem claim_C8 (api : CarmdApi) (year make : PyVal) :
    (api.get_models year make).params
      = some [("year", PyVal.str (pyStr year)), ("make", make)]
    ∧ api.get_models (PyVal.int 2013) (PyVal.str "Toyota")
        = api.get_models (PyVal.str "2013") (PyVal.str "Toyota")
    ∧ (api.get_models (PyVal.int 2013) (PyVal.str "Toyota")).params
        = some [("year", PyVal.str "2013"), ("make", PyVal.str "Toyota")] :=
  ⟨rfl, rfl, rfl⟩

/-- One public method invocation on the client (api.py lines 62-198). -/
inductive ApiCall
  | decode (vin : PyVal)
  | safety_recall (vehicle_id : PyVal)
  | predicted_repair (vehicle_id tag fleet_id : Option PyVal)
  | warranty (vehicle_id : PyVal)
  | maintenance (vin mileage : PyVal)
  | years (make : PyVal)
  | makes
  | models (year make : PyVal)
  | raw_get (service : String) (params : Option PyDict) (kwargs : String → Option KwVal)

/-- Dispatch of one public method call, paired with the client state after
the call: none of the method bodies (api.py lines 62-198) assigns to any
attribute of `self`, so each call returns the state it received. -/
def CarmdApi.run (api : CarmdApi) : ApiCall → CarmdApi × Except PyError HttpCall
  | .decode vin => (api, .ok (api.get_decode vin))
  | .safety_recall v => (api, .ok (api.get_safety_recall v))
  | .predicted_repair v t f => (api, api.get_predicted_repair v t f)
  | .warranty v => (api, .ok (api.get_warranty v))
  | .maintenance vin m => (api, .ok (api.get_maintenance vin m))
  | .years mke => (api, .ok (api.get_years mke))
  | .makes => (api, .ok api.get_makes)
  | .models y mke => (api, .ok (api.get_models y mke))
  | .raw_get s p kw => (api, .ok (api.get s p kw))

/-- C9: a successfully constructed client is immutable: no method call
changes the client state, the stored auth object is exactly the stored
key/secret pair, every issued request carries that same auth object — so any
two requests issued by the same client carry the same credential headers —
and applying the stored auth to any request sets the `authorization` header
to the stored key and the `partner-token` header to the stored secret. -/
theorem claim_C9 (g : ModuleGlobals) (ks ss : Option String) (api : CarmdApi)
    (hinit : CarmdApi.init g ks ss = .ok api) :
    (∀ c, (api.run c).1 = api)
    ∧ api._auth = { key := api._key, secret := api._secret }
    ∧ (∀ c r, (api.run c).2 = .ok r →
        r.kwargs "auth" = some (KwVal.auth api._auth))
    ∧ (∀ c c' r r', (api.run c).2 = .ok r → (api.run c').2 = .ok r' →
        r.kwargs "auth" = r'.kwargs "auth")
    ∧ (∀ req, (api._auth.call req).headers "authorization" = some api._key
        ∧ (api._auth.call req).headers "partner-token" = some api._secret) := by
  have hform : CarmdApi.init g ks ss
      = if (pyTruthy (fallback ks g.CMD_DEFAULT_KEY)
            && pyTruthy (fallback ss g.CMD_DEFAULT_SECRET)) then
          .ok { _key := (fallback ks g.CMD_DEFAULT_KEY).getD "",
                _secret := (fallback ss g.CMD_DEFAULT_SECRET).getD "",
                _auth := { key := (fallback ks g.CMD_DEFAULT_KEY).getD "",
                           secret := (fallback ss g.CMD_DEFAULT_SECRET).getD "" } }
        else .error (.keyError initErrorMsg) := rfl
  have hauth : api._auth = { key := api._key, secret := api._secret } := by
    rw [hform] at hinit
    split at hinit
    · injection hinit with h
      subst h
      rfl
    · exact Except.noConfusion hinit
  have hkw : ∀ c r, (api.run c).2 = .ok r →
      r.kwargs "auth" = some (KwVal.auth api._auth) := by
    intro c r hr
    cases c
    case decode vin =>
      have h : Except.ok (api.get_decode vin) = Except.ok r := hr
      cases h
      exact api.get_kwargs_auth _ _ _
    case safety_recall v =>
      have h : Except.ok (api.get_safety_recall v) = Except.ok r := hr
      cases h
      exact api.get_kwargs_auth _ _ _
    case predicted_repair v t f =>
      cases v
      case some x =>
        have h : Except.ok (api.get "report/predicted" (some [("vehicleID", x)])
            emptyKwargs) = Except.ok r := hr
        cases h
        exact api.get_kwargs_auth _ _ _
      case none =>
        cases t
        case some x =>
          have h : Except.ok (api.get "report/predicted" (some [("tag", x)])
              emptyKwargs) = Except.ok r := hr
          cases h
          exact api.get_kwargs_auth _ _ _
        case none =>
          cases f
          case some x =>
            have h : Except.ok (api.get "report/predicted" (some [("fleetID", x)])
                emptyKwargs) = Except.ok r := hr
            cases h
            exact api.get_kwargs_auth _ _ _
          case none => exact Except.noConfusion hr
    case warranty v =>
      have h : Except.ok (api.get_warranty v) = Except.ok r := hr
      cases h
      exact api.get_kwargs_auth _ _ _
    case maintenance vin m =>
      have h : Except.ok (api.get_maintenance vin m) = Except.ok r := hr
      cases h
      exact api.get_kwargs_auth _ _ _
    case years mke =>
      have h : Except.ok (api.get_years mke) = Except.ok r := hr
      cases h
      exact api.get_kwargs_auth _ _ _
    case makes =>
      have h : Except.ok api.get_makes = Except.ok r := hr
      cases h
      exact api.get_kwargs_auth _ _ _
    case models y mke =>
      have h : Except.ok (api.get_models y mke) = Except.ok r := hr
      cases h
      exact api.get_kwargs_auth _ _ _
    case raw_get s p kw =>
      have h : Except.ok (api.get s p kw) = Except.ok r := hr
      cases h
      exact api.get_kwargs_auth _ _ _
  refine ⟨fun c => by cases c <;> rfl, hauth, hkw,
    fun c c' r r' hr hr' => (hkw c r hr).trans (hkw c' r' hr').symm,
    fun req => ⟨?_, ?_⟩⟩
  · rw [api._auth.call_authorization req, hauth]
  · rw [api._auth.call_partner_token req, hauth]

/-- A module-globals record with no environment-derived defaults. -/
def g0 : ModuleGlobals := { CMD_DEFAULT_KEY := none, CMD_DEFAULT_SECRET := none }

/-- A concrete outgoing request. -/
def sampleRequest : Request :=
  { method := "GET", url := "http://api2.carmd.com/v2.0/decode",
    headers := fun _ => none, body := none }

/-- C9 instantiated at the client constructed from key "k" and secret "s":
the makes call leaves the client unchanged, its request carries the stored
auth object, and the stored auth sets the credential headers. -/
theorem claim_C9_witness :
    (sampleApi.run ApiCall.makes).1 = sampleApi
    ∧ sampleApi._auth = { key := sampleApi._key, secret := sampleApi._secret }
    ∧ sampleApi.get_makes.kwargs "auth" = some (KwVal.auth sampleApi._auth)
    ∧ (sampleApi._auth.call sampleRequest).headers "authorization" = some "k" := by
  obtain ⟨h1, h2, h3, _, h5⟩ := claim_C9 g0 (some "k") (some "s") sampleApi rfl
  exact ⟨h1 ApiCall.makes, h2, h3 ApiCall.makes sampleApi.get_makes (by rfl),
    (h5 sampleRequest).1⟩

/-- Constructing a client in a process that imported `pycarmd.api` while the
environment was `importEnv`, the environment being `_constructEnv` at
construction time: `__init__` (api.py lines 49-52) reads only the module
globals computed at import time (api.py lines 9-10) and never consults the
construction-time environment. -/
def constructInProcess (importEnv : Env) (_constructEnv : Env)
    (key secret : Option String) : Except PyError CarmdApi :=
  CarmdApi.init (importApiModule importEnv) key secret

/-- C10: construction reads the CARMD_KEY / CARMD_SECRET fallbacks captured
into module globals at import time: its result is the same for any two
construction-time environments, it equals initialization from the
import-time values of the two variables, and an omitted key or secret falls
back to exactly the import-time environment value. -/
theorem claim_C10 (e1 e2 e2' : Env) (key secret : Option String) :
    constructInProcess e1 e2 key secret = constructInProcess e1 e2' key secret
    ∧ constructInProcess e1 e2 key secret
        = CarmdApi.init
            { CMD_DEFAULT_KEY := os_environ_get e1 "CARMD_KEY",
              CMD_DEFAULT_SECRET := os_environ_get e1 "CARMD_SECRET" }
            key secret
    ∧ fallback none (importApiModule e1).CMD_DEFAULT_KEY
        = os_environ_get e1 "CARMD_KEY"
    ∧ fallback none (importApiModule e1).CMD_DEFAULT_SECRET
        = os_environ_get e1 "CARMD_SECRET" :=
  ⟨rfl, rfl, rfl, rfl⟩
